import Mathlib

/-!
Verification development for the whm2bunny provisioning daemon.

This file gives a shallow embedding, in Lean 4, of the parts of the Go
source that the specification claims speak about:

* the state store (package state, Manager and its mutators),
* the crash-atomic save discipline (temp file plus rename),
* the provisioning pipeline (packages provisioner and bunny), run against a
  pure model of the Bunny provider: provider calls are modelled failure-free
  (network faults are outside these claims) and every outbound call is
  recorded in a call log,
* the webhook handler with a full executable SHA-256 / HMAC-SHA256,
* the retry policy of the HTTP client (doRequest plus the semantics of the
  sethvargo/go-retry combinators it uses).

Go machine integers are modelled as Int (they never approach overflow in the
modelled code paths); byte strings as List Nat with entries below 256; time
stamps as an abstract Nat clock passed by callers (the claims do not depend
on wall-clock values); uuid generation as an identifier supplied by the
caller.  Map iteration state is modelled as a list of records: the claims
under study never put two records with the same id or domain in the store.
-/

namespace Whm2Bunny

/-- Status constants from state/state.go. -/
def statusPending : String := "pending"

def statusProvisioning : String := "provisioning"

def statusSuccess : String := "success"

def statusFailed : String := "failed"

/-- Step constants from state/state.go. -/
def stepNone : Int := 0

def stepDNSZone : Int := 1

def stepDNSRecords : Int := 2

def stepPullZone : Int := 3

def stepCNAMESync : Int := 4

/-- ProvisionState record (state/state.go).  Timestamps are an abstract
Nat clock. -/
structure ProvisionState where
  id : String
  domain : String
  status : String
  currentStep : Int
  zoneId : Int
  pullZoneId : Int
  cdnHostname : String
  error : String
  retries : Int
  createdAt : Nat
  updatedAt : Nat
deriving DecidableEq, Repr

/-- The in-memory record set of the state Manager. -/
abbrev Store := List ProvisionState

inductive MgrErr where
  | stateNotFound
deriving DecidableEq, Repr

/-- Manager.Get: look a record up by id (returns a copy). -/
def mgrGet (s : Store) (id : String) : Option ProvisionState :=
  s.find? (fun st => st.id = id)

/-- Manager.GetByDomain: look a record up through the domain index. -/
def mgrGetByDomain (s : Store) (d : String) : Option ProvisionState :=
  s.find? (fun st => st.domain = d)

/-- Replace every record carrying the given id (the Go map holds one). -/
def setById (s : Store) (id : String) (f : ProvisionState → ProvisionState) : Store :=
  s.map (fun st => if st.id = id then f st else st)

/-- Manager.Create: fresh pending record at step 0 with zero retries.
The uuid and the clock are supplied by the caller. -/
def mgrCreate (s : Store) (id d : String) (now : Nat) : ProvisionState × Store :=
  let st : ProvisionState :=
    { id := id, domain := d, status := statusPending, currentStep := stepNone
      zoneId := 0, pullZoneId := 0, cdnHostname := "", error := ""
      retries := 0, createdAt := now, updatedAt := now }
  (st, s ++ [st])

/-- Manager.Update: stores the passed record wholesale, preserving
CreatedAt and refreshing UpdatedAt. -/
def mgrUpdate (s : Store) (st : ProvisionState) (now : Nat) : Except MgrErr Store :=
  match mgrGet s st.id with
  | none => .error .stateNotFound
  | some old =>
      .ok (setById s st.id (fun _ => { st with createdAt := old.createdAt, updatedAt := now }))

/-- Manager.Delete. -/
def mgrDelete (s : Store) (id : String) : Except MgrErr Store :=
  match mgrGet s id with
  | none => .error .stateNotFound
  | some _ => .ok (s.filter (fun st => st.id ≠ id))

/-- Manager.IncrementStep: CurrentStep++ on the stored record. -/
def mgrIncrementStep (s : Store) (id : String) (now : Nat) : Except MgrErr Store :=
  match mgrGet s id with
  | none => .error .stateNotFound
  | some _ =>
      .ok (setById s id (fun st => { st with currentStep := st.currentStep + 1, updatedAt := now }))

/-- Manager.SetError: mark failed, record the message, Retries++. -/
def mgrSetError (s : Store) (id msg : String) (now : Nat) : Except MgrErr Store :=
  match mgrGet s id with
  | none => .error .stateNotFound
  | some _ =>
      .ok (setById s id (fun st =>
        { st with status := statusFailed, error := msg
                  retries := st.retries + 1, updatedAt := now }))

/-- Manager.MarkSuccess: status success, CurrentStep set to StepCNAMESync,
error cleared. -/
def mgrMarkSuccess (s : Store) (id : String) (now : Nat) : Except MgrErr Store :=
  match mgrGet s id with
  | none => .error .stateNotFound
  | some _ =>
      .ok (setById s id (fun st =>
        { st with status := statusSuccess, currentStep := stepCNAMESync
                  error := "", updatedAt := now }))

/-- Manager.MarkProvisioning. -/
def mgrMarkProvisioning (s : Store) (id : String) (now : Nat) : Except MgrErr Store :=
  match mgrGet s id with
  | none => .error .stateNotFound
  | some _ =>
      .ok (setById s id (fun st => { st with status := statusProvisioning, updatedAt := now }))

/-- Manager.Clear. -/
def mgrClear (_ : Store) : Store := []

/-- Selection predicate of Manager.Recover: pending records, and failed
records that still have retries left. -/
def recoverPred (st : ProvisionState) : Bool :=
  if st.status = statusPending then true
  else if st.status = statusFailed ∧ st.retries < 5 then true
  else false

/-- Manager.Recover: the records that need recovery. -/
def recoverStates (s : Store) : List ProvisionState :=
  s.filter recoverPred

/-- The records the recovery driver actually re-provisions: the loop body in
Provisioner.Recover skips any record whose Retries is at least 5. -/
def recoverDriverTargets (s : Store) : List ProvisionState :=
  (recoverStates s).filter (fun st => !(st.retries ≥ 5))

/-! ## Disk model for the temp-file-then-rename save discipline -/

/-- The two files touched by Manager.save: the real state file and the
sibling temp file.  Contents are modelled as the serialized record set
itself, none meaning the file is absent. -/
structure DiskState where
  main : Option Store
  tmp : Option Store
deriving DecidableEq, Repr

/-- The disk operations issued by Manager.save, in order: a full write of
the temp file, then an atomic rename over the real path. -/
inductive DiskOp where
  | writeTmp (data : Store)
  | renameTmpToMain
deriving DecidableEq, Repr

def applyDiskOp (d : DiskState) : DiskOp → DiskState
  | .writeTmp data => { d with tmp := some data }
  | .renameTmpToMain =>
      match d.tmp with
      | some t => { main := some t, tmp := none }
      | none => d

/-- Manager.save: serialize the full record set, write the temp file,
rename it over the real path. -/
def saveOps (states : Store) : List DiskOp :=
  [.writeTmp states, .renameTmpToMain]

/-- The mutations of the state store, each of which triggers a save. -/
inductive Mutation where
  | create (id d : String) (now : Nat)
  | update (st : ProvisionState) (now : Nat)
  | delete (id : String)
  | incrementStep (id : String) (now : Nat)
  | setError (id msg : String) (now : Nat)
  | markSuccess (id : String) (now : Nat)
  | markProvisioning (id : String) (now : Nat)
  | clear
deriving DecidableEq, Repr

/-- The record set after a mutation; a mutation that fails with
ErrStateNotFound leaves the set unchanged (and issues no save). -/
def mutationResult (m : Mutation) (s : Store) : Store × Bool :=
  match m with
  | .create id d now => ((mgrCreate s id d now).2, true)
  | .update st now =>
      match mgrUpdate s st now with
      | .ok s2 => (s2, true)
      | .error _ => (s, false)
  | .delete id =>
      match mgrDelete s id with
      | .ok s2 => (s2, true)
      | .error _ => (s, false)
  | .incrementStep id now =>
      match mgrIncrementStep s id now with
      | .ok s2 => (s2, true)
      | .error _ => (s, false)
  | .setError id msg now =>
      match mgrSetError s id msg now with
      | .ok s2 => (s2, true)
      | .error _ => (s, false)
  | .markSuccess id now =>
      match mgrMarkSuccess s id now with
      | .ok s2 => (s2, true)
      | .error _ => (s, false)
  | .markProvisioning id now =>
      match mgrMarkProvisioning s id now with
      | .ok s2 => (s2, true)
      | .error _ => (s, false)
  | .clear => (mgrClear s, true)

/-- The disk operations a mutation performs: a successful mutation saves the
new record set; a failed lookup saves nothing. -/
def mutationDiskOps (m : Mutation) (s : Store) : List DiskOp :=
  match mutationResult m s with
  | (s2, true) => saveOps s2
  | (_, false) => []

/-! ## Provider model (packages bunny: cdn.go, dns.go) -/

/-- The configuration fields the pipeline reads (config/config.go). -/
structure Config where
  soaEmail : String
  reverseProxyIP : String
  originShieldRegion : String
deriving DecidableEq, Repr

/-- DNS record kind integers from bunny (A=0, AAAA=1, CNAME=2, TXT=3,
MX=4, NS=5). -/
def dnsRecordTypeA : Int := 0

def dnsRecordTypeAAAA : Int := 1

def dnsRecordTypeCNAME : Int := 2

def dnsRecordTypeTXT : Int := 3

def dnsRecordTypeMX : Int := 4

def dnsRecordTypeNS : Int := 5

/-- Default record TTL (provisioner/domain.go). -/
def defaultDNSRecordTTL : Int := 3600

structure DNSZoneM where
  id : Int
  domain : String
  soaEmail : String
deriving DecidableEq, Repr

structure DNSRecordM where
  id : Int
  rtype : Int
  name : String
  value : String
  ttl : Int
  priority : Int
  enabled : Bool
deriving DecidableEq, Repr

/-- AddDNSRecordRequest / UpdateDNSRecordRequest payload fields that the
pipeline sets. -/
structure DNSRecordReq where
  rtype : Int
  name : String
  value : String
  ttl : Int
  priority : Int
  enabled : Bool
deriving DecidableEq, Repr

structure PullZoneM where
  id : Int
  name : String
  hostnames : List String
deriving DecidableEq, Repr

/-- CreatePullZoneRequest (bunny/cdn.go), with exactly the fields the
client fills in. -/
structure CreatePullZoneRequest where
  name : String
  originUrl : String
  originHostHeader : String
  enableGeoZoneASIA : Bool
  enableGeoZoneEU : Bool
  enableGeoZoneNA : Bool
  enableGeoZoneSA : Bool
  enableGeoZoneAF : Bool
  enableOriginShield : Bool
  originShieldZoneCode : String
  enableAutoSSL : Bool
  enableBrotliCompression : Bool
  cacheExpirationTime : Int
deriving DecidableEq, Repr

/-- generatePullZoneName (provisioner/provision.go and bunny/cdn.go):
lowercase the domain, replace every dot with a dash, prepend morden-. -/
def generatePullZoneName (domain : String) : String :=
  "morden-" ++ String.mk (domain.toList.map (fun c => if c = '.' then '-' else c.toLower))

/-- generateSubdomainPullZoneName (provisioner/provision.go). -/
def generateSubdomainPullZoneName (subdomain parentDomain : String) : String :=
  generatePullZoneName (subdomain ++ "." ++ parentDomain)

/-- The request Client.CreatePullZone builds (bunny/cdn.go lines 119-136).
The origin shield region code is the literal SG: the function takes no
configuration value. -/
def mkCreatePullZoneRequest (domain originIP : String) : CreatePullZoneRequest :=
  { name := generatePullZoneName domain
    originUrl := "http://" ++ originIP
    originHostHeader := domain
    enableGeoZoneASIA := true
    enableGeoZoneEU := false
    enableGeoZoneNA := false
    enableGeoZoneSA := false
    enableGeoZoneAF := false
    enableOriginShield := true
    originShieldZoneCode := "SG"
    enableAutoSSL := true
    enableBrotliCompression := true
    cacheExpirationTime := 1440 }

/-- Does the character sequence sub occur inside l (strings.Contains)? -/
def startsWithSeq : List Char → List Char → Bool
  | _, [] => true
  | [], _ :: _ => false
  | a :: as, b :: bs => a = b && startsWithSeq as bs

def containsSeq : List Char → List Char → Bool
  | [], sub => startsWithSeq [] sub
  | a :: as, sub => startsWithSeq (a :: as) sub || containsSeq as sub

def strContains (s sub : String) : Bool :=
  containsSeq s.toList sub.toList

/-- extractCDNHostname (provisioner/domain.go and the identical copy in the
subdomain provisioner): first hostname containing .bunnycdn.com, else the
first hostname when non-empty, else the fabricated id.bunnycdn.com when the
id is positive, else the empty string. -/
def extractCDNHostname (pz : PullZoneM) : String :=
  match pz.hostnames with
  | [] =>
      if pz.id > 0 then toString pz.id ++ ".bunnycdn.com" else ""
  | h0 :: _ =>
      match pz.hostnames.find? (fun h => strContains h ".bunnycdn.com") with
      | some h => h
      | none =>
          if h0 ≠ "" then h0
          else if pz.id > 0 then toString pz.id ++ ".bunnycdn.com" else ""

/-- The provider side state: DNS zones, their records, pull zones, and a
fresh-id counter for created resources. -/
structure Provider where
  zones : List DNSZoneM
  records : List (Int × DNSRecordM)
  pullZones : List PullZoneM
  nextId : Int
deriving DecidableEq, Repr

/-- Every provider call the pipeline makes, as logged by the model. -/
inductive ApiCall where
  | getDNSZone (domain : String)
  | createDNSZone (domain soaEmail : String)
  | getDNSRecords (zoneId : Int)
  | addDNSRecord (zoneId : Int) (req : DNSRecordReq)
  | updateDNSRecord (zoneId recId : Int) (req : DNSRecordReq)
  | deleteDNSRecord (zoneId recId : Int)
  | deleteDNSZone (zoneId : Int)
  | getPullZoneByName (name : String)
  | createPullZone (req : CreatePullZoneRequest)
  | getPullZone (pullZoneId : Int)
  | addPullZoneHostname (pullZoneId : Int) (hostname : String)
  | deletePullZone (pullZoneId : Int)
deriving DecidableEq, Repr

/-- The world a pipeline run sees: the state store, the provider, and the
log of provider calls made so far. -/
structure Env where
  store : Store
  prov : Provider
  calls : List ApiCall
deriving DecidableEq, Repr

def logCall (e : Env) (c : ApiCall) : Env :=
  { e with calls := e.calls ++ [c] }

/-- Client.GetDNSZone: list the zones and search by domain; a miss is the
NotFound error, modelled as none. -/
def clGetDNSZone (e : Env) (domain : String) : Option DNSZoneM × Env :=
  (e.prov.zones.find? (fun z => z.domain = domain), logCall e (.getDNSZone domain))

/-- Client.CreateDNSZone, modelled failure-free: the provider stores a new
zone under a fresh id. -/
def clCreateDNSZone (e : Env) (domain soaEmail : String) : DNSZoneM × Env :=
  let z : DNSZoneM := { id := e.prov.nextId, domain := domain, soaEmail := soaEmail }
  (z, { logCall e (.createDNSZone domain soaEmail) with
        prov := { e.prov with zones := e.prov.zones ++ [z], nextId := e.prov.nextId + 1 } })

/-- Client.GetDNSRecords. -/
def clGetDNSRecords (e : Env) (zoneId : Int) : List DNSRecordM × Env :=
  ((e.prov.records.filter (fun p => p.1 = zoneId)).map (fun p => p.2),
   logCall e (.getDNSRecords zoneId))

/-- Client.AddDNSRecord, failure-free: the provider stores the record under
a fresh id. -/
def clAddDNSRecord (e : Env) (zoneId : Int) (req : DNSRecordReq) : DNSRecordM × Env :=
  let r : DNSRecordM :=
    { id := e.prov.nextId, rtype := req.rtype, name := req.name, value := req.value
      ttl := req.ttl, priority := req.priority, enabled := req.enabled }
  let prov2 :=
    { e.prov with
      records := e.prov.records ++ [(zoneId, r)]
      nextId := e.prov.nextId + 1 }
  (r, { logCall e (.addDNSRecord zoneId req) with prov := prov2 })

/-- Client.UpdateDNSRecord: overwrite the fields of the matching record. -/
def clUpdateDNSRecord (e : Env) (zoneId recId : Int) (req : DNSRecordReq) : Env :=
  { logCall e (.updateDNSRecord zoneId recId req) with
    prov := { e.prov with records := e.prov.records.map (fun p =>
      if p.1 = zoneId ∧ p.2.id = recId then
        (p.1, { p.2 with rtype := req.rtype, name := req.name, value := req.value
                         ttl := req.ttl, priority := req.priority, enabled := req.enabled })
      else p) } }

/-- Client.DeleteDNSRecord; true when the record existed. -/
def clDeleteDNSRecord (e : Env) (zoneId recId : Int) : Bool × Env :=
  let found := e.prov.records.any (fun p => p.1 = zoneId ∧ p.2.id = recId)
  (found, { logCall e (.deleteDNSRecord zoneId recId) with
            prov := { e.prov with records :=
              e.prov.records.filter (fun p => ¬(p.1 = zoneId ∧ p.2.id = recId)) } })

/-- Client.DeleteDNSZone: deleting the zone drops its records too; false
models the NotFound error for an absent zone. -/
def clDeleteDNSZone (e : Env) (zoneId : Int) : Bool × Env :=
  let found := e.prov.zones.any (fun z => z.id = zoneId)
  (found, { logCall e (.deleteDNSZone zoneId) with
            prov := { e.prov with
              zones := e.prov.zones.filter (fun z => z.id ≠ zoneId)
              records := e.prov.records.filter (fun p => p.1 ≠ zoneId) } })

/-- Client.GetPullZoneByName: list the pull zones and search by name. -/
def clGetPullZoneByName (e : Env) (name : String) : Option PullZoneM × Env :=
  (e.prov.pullZones.find? (fun z => z.name = name), logCall e (.getPullZoneByName name))

/-- Client.CreatePullZone: builds the request of bunny/cdn.go from the
domain and the origin IP and stores the new zone; the provider assigns the
system hostname name.b-cdn.net, as Bunny does. -/
def clCreatePullZone (e : Env) (domain originIP : String) : PullZoneM × Env :=
  let req := mkCreatePullZoneRequest domain originIP
  let z : PullZoneM :=
    { id := e.prov.nextId, name := req.name, hostnames := [req.name ++ ".b-cdn.net"] }
  let prov2 :=
    { e.prov with
      pullZones := e.prov.pullZones ++ [z]
      nextId := e.prov.nextId + 1 }
  (z, { logCall e (.createPullZone req) with prov := prov2 })

/-- Client.GetPullZone by id. -/
def clGetPullZone (e : Env) (pullZoneId : Int) : Option PullZoneM × Env :=
  (e.prov.pullZones.find? (fun z => z.id = pullZoneId), logCall e (.getPullZone pullZoneId))

/-- Client.AddPullZoneHostname; false models the error for an absent zone. -/
def clAddPullZoneHostname (e : Env) (pullZoneId : Int) (hostname : String) : Bool × Env :=
  let found := e.prov.pullZones.any (fun z => z.id = pullZoneId)
  (found, { logCall e (.addPullZoneHostname pullZoneId hostname) with
            prov := { e.prov with pullZones := e.prov.pullZones.map (fun z =>
              if z.id = pullZoneId then { z with hostnames := z.hostnames ++ [hostname] }
              else z) } })

/-- Client.DeletePullZone; false models the NotFound error. -/
def clDeletePullZone (e : Env) (pullZoneId : Int) : Bool × Env :=
  let found := e.prov.pullZones.any (fun z => z.id = pullZoneId)
  (found, { logCall e (.deletePullZone pullZoneId) with
            prov := { e.prov with pullZones :=
              e.prov.pullZones.filter (fun z => z.id ≠ pullZoneId) } })

/-! ## The provisioning pipeline (internal/provisioner) -/

/-- The terminal errors the pipeline steps can produce in the model. -/
inductive PErr where
  | mgr (er : MgrErr)
  | stateNotFound
  | parentZoneNotFound (parent : String)
  | pullZoneFetchFailed
  | emptyCDNHostname
deriving DecidableEq, Repr

def pErrMsg : PErr → String
  | .mgr _ => "state not found"
  | .stateNotFound => "failed to get state"
  | .parentZoneNotFound p => "parent DNS zone not found for " ++ p
  | .pullZoneFetchFailed => "failed to get pull zone"
  | .emptyCDNHostname => "could not extract CDN hostname from pull zone"

/-- The Update-then-IncrementStep tail shared by the domain steps: the
store receives the local record copy wholesale, then CurrentStep++. -/
def updateAndIncrement (e : Env) (ps : ProvisionState) : Env × Except PErr ProvisionState :=
  match mgrUpdate e.store ps 0 with
  | .error er => (e, .error (.mgr er))
  | .ok s2 =>
      match mgrIncrementStep s2 ps.id 0 with
      | .error er => ({ e with store := s2 }, .error (.mgr er))
      | .ok s3 => ({ e with store := s3 }, .ok ps)

/-- Step 1 (DomainProvisioner.createDNSZone): adopt an existing zone or
create one, persist the zone id, advance the step. -/
def dpCreateDNSZone (e : Env) (cfg : Config) (domain : String) (ps : ProvisionState) :
    Env × Except PErr ProvisionState :=
  let (zOpt, e) := clGetDNSZone e domain
  match zOpt with
  | some z =>
      let ps := { ps with zoneId := z.id }
      updateAndIncrement e ps
  | none =>
      let (z, e) := clCreateDNSZone e domain cfg.soaEmail
      let ps := { ps with zoneId := z.id }
      updateAndIncrement e ps

def recordExists (recs : List DNSRecordM) (name : String) (rtype : Int) : Bool :=
  recs.any (fun r => r.name = name ∧ r.rtype = rtype)

/-- Step 2 (DomainProvisioner.addDNSRecords): seed the A, www CNAME, MX,
SPF TXT and DMARC TXT records, each only when no record of the same name
and kind exists, then advance the step.  The local record copy is not
touched. -/
def dpAddDNSRecords (e : Env) (cfg : Config) (domain : String) (zoneId : Int)
    (ps : ProvisionState) : Env × Except PErr ProvisionState :=
  let (existing, e) := clGetDNSRecords e zoneId
  let e :=
    if recordExists existing "@" dnsRecordTypeA then e
    else (clAddDNSRecord e zoneId
      ⟨dnsRecordTypeA, "@", cfg.reverseProxyIP, defaultDNSRecordTTL, 0, true⟩).2
  let e :=
    if recordExists existing "www" dnsRecordTypeCNAME then e
    else (clAddDNSRecord e zoneId
      ⟨dnsRecordTypeCNAME, "www", domain ++ ".", defaultDNSRecordTTL, 0, true⟩).2
  let e :=
    if recordExists existing "@" dnsRecordTypeMX then e
    else (clAddDNSRecord e zoneId
      ⟨dnsRecordTypeMX, "@", "mail." ++ domain ++ ".", defaultDNSRecordTTL, 10, true⟩).2
  let e :=
    if recordExists existing "@" dnsRecordTypeTXT then e
    else (clAddDNSRecord e zoneId
      ⟨dnsRecordTypeTXT, "@", "v=spf1 a mx -all", defaultDNSRecordTTL, 0, true⟩).2
  let e :=
    if recordExists existing "_dmarc" dnsRecordTypeTXT then e
    else (clAddDNSRecord e zoneId
      ⟨dnsRecordTypeTXT, "_dmarc", "v=DMARC1; p=none; rua=mailto:dmarc@" ++ domain,
        defaultDNSRecordTTL, 0, true⟩).2
  match mgrIncrementStep e.store ps.id 0 with
  | .error er => (e, .error (.mgr er))
  | .ok s2 => ({ e with store := s2 }, .ok ps)

/-- Step 3 (DomainProvisioner.createPullZone): adopt the pull zone of the
canonical name or create it, best-effort add the domain hostname, persist
the ids, advance the step. -/
def dpCreatePullZone (e : Env) (cfg : Config) (domain : String) (ps : ProvisionState) :
    Env × Except PErr ProvisionState :=
  let zoneName := generatePullZoneName domain
  let (pzOpt, e) := clGetPullZoneByName e zoneName
  match pzOpt with
  | some z =>
      let ps := { ps with pullZoneId := z.id, cdnHostname := extractCDNHostname z }
      updateAndIncrement e ps
  | none =>
      let (pz, e) := clCreatePullZone e domain cfg.reverseProxyIP
      let (_, e) := clAddPullZoneHostname e pz.id domain
      let ps := { ps with pullZoneId := pz.id, cdnHostname := extractCDNHostname pz }
      updateAndIncrement e ps

/-- Step 4 (DomainProvisioner.syncCDNCNAME): point the cdn CNAME at the
pull zone hostname, updating an existing record or adding one. -/
def dpSyncCDNCNAME (e : Env) (cfg : Config) (zoneId pullZoneId : Int) (ps : ProvisionState) :
    Env × Except PErr ProvisionState :=
  let (pzOpt, e) := clGetPullZone e pullZoneId
  match pzOpt with
  | none => (e, .error .pullZoneFetchFailed)
  | some pz =>
      let h := extractCDNHostname pz
      if h = "" then (e, .error .emptyCDNHostname)
      else
        let (existing, e) := clGetDNSRecords e zoneId
        let e :=
          match existing.find? (fun r => r.name = "cdn" ∧ r.rtype = dnsRecordTypeCNAME) with
          | some r =>
              clUpdateDNSRecord e zoneId r.id
                ⟨dnsRecordTypeCNAME, "cdn", h, defaultDNSRecordTTL, 0, true⟩
          | none =>
              (clAddDNSRecord e zoneId
                ⟨dnsRecordTypeCNAME, "cdn", h, defaultDNSRecordTTL, 0, true⟩).2
        let ps := { ps with cdnHostname := h }
        updateAndIncrement e ps

/-- The tail of the fall-through switch from step 4 on. -/
def domainFrom4 (e : Env) (cfg : Config) (ps : ProvisionState) : Env × Option PErr :=
  match dpSyncCDNCNAME e cfg ps.zoneId ps.pullZoneId ps with
  | (e, .error er) => (e, some er)
  | (e, .ok _) => (e, none)

/-- The tail of the fall-through switch from step 3 on. -/
def domainFrom3 (e : Env) (cfg : Config) (domain : String) (ps : ProvisionState) :
    Env × Option PErr :=
  match dpCreatePullZone e cfg domain ps with
  | (e, .error er) => (e, some er)
  | (e, .ok ps) => domainFrom4 e cfg ps

/-- The tail of the fall-through switch from step 2 on. -/
def domainFrom2 (e : Env) (cfg : Config) (domain : String) (ps : ProvisionState) :
    Env × Option PErr :=
  match dpAddDNSRecords e cfg domain ps.zoneId ps with
  | (e, .error er) => (e, some er)
  | (e, .ok ps) => domainFrom3 e cfg domain ps

/-- DomainProvisioner.Provision: reload the record by domain, dispatch on
CurrentStep and fall through the remaining steps, threading the in-memory
record copy exactly as the Go code threads its pointer. -/
def domainPipeline (e : Env) (cfg : Config) (domain : String) : Env × Option PErr :=
  match mgrGetByDomain e.store domain with
  | none => (e, some .stateNotFound)
  | some ps =>
      if ps.currentStep = stepNone ∨ ps.currentStep = stepDNSZone then
        match dpCreateDNSZone e cfg domain ps with
        | (e, .error er) => (e, some er)
        | (e, .ok ps) => domainFrom2 e cfg domain ps
      else if ps.currentStep = stepDNSRecords then domainFrom2 e cfg domain ps
      else if ps.currentStep = stepPullZone then domainFrom3 e cfg domain ps
      else if ps.currentStep = stepCNAMESync then domainFrom4 e cfg ps
      else (e, none)

/-- The body of Provisioner.Provision after the short-circuit check:
MarkProvisioning, run the step machine, then SetError or MarkSuccess. -/
def modelProvisionRun (e : Env) (cfg : Config) (domain entryId : String) :
    Env × Option PErr :=
  match mgrMarkProvisioning e.store entryId 0 with
  | .error er => (e, some (.mgr er))
  | .ok s2 =>
      let e := { e with store := s2 }
      match domainPipeline e cfg domain with
      | (e, some er) =>
          let e :=
            match mgrSetError e.store entryId (pErrMsg er) 0 with
            | .ok s3 => { e with store := s3 }
            | .error _ => e
          (e, some er)
      | (e, none) =>
          let e :=
            match mgrMarkSuccess e.store entryId 0 with
            | .ok s3 => { e with store := s3 }
            | .error _ => e
          (e, none)

/-- Provisioner.Provision: return at once when the domain already has a
record in status success; otherwise resume the existing record or create a
fresh one and run the step machine.  newId stands in for the generated
uuid. -/
def modelProvision (e : Env) (cfg : Config) (domain newId : String) : Env × Option PErr :=
  match mgrGetByDomain e.store domain with
  | some existing =>
      if existing.status = statusSuccess then (e, none)
      else modelProvisionRun e cfg domain existing.id
  | none =>
      let (st, s2) := mgrCreate e.store newId domain 0
      modelProvisionRun { e with store := s2 } cfg domain st.id

/-- Subdomain step 1 (SubdomainProvisioner.findParentAndCreatePullZone):
require the parent zone, persist its id, then adopt or create the
subdomain pull zone.  Both exits assign CurrentStep the constant
StepPullZone; in the create branch the assignment is persisted by Update,
in the adopt branch it is made only after the Update calls. -/
def spFindParentAndCreatePullZone (e : Env) (cfg : Config) (subdomain parentDomain : String)
    (ps : ProvisionState) : Env × Except PErr ProvisionState :=
  let fullDomain := subdomain ++ "." ++ parentDomain
  let (zOpt, e) := clGetDNSZone e parentDomain
  match zOpt with
  | none => (e, .error (.parentZoneNotFound parentDomain))
  | some parentZone =>
      let ps := { ps with zoneId := parentZone.id }
      match mgrUpdate e.store ps 0 with
      | .error er => (e, .error (.mgr er))
      | .ok s2 =>
          let e := { e with store := s2 }
          let pullZoneName := generateSubdomainPullZoneName subdomain parentDomain
          let (pzOpt, e) := clGetPullZoneByName e pullZoneName
          match pzOpt with
          | some existing =>
              let ps :=
                { ps with pullZoneId := existing.id
                          cdnHostname := extractCDNHostname existing }
              match mgrUpdate e.store ps 0 with
              | .error er => (e, .error (.mgr er))
              | .ok s3 =>
                  match mgrUpdate s3 ps 0 with
                  | .error er => ({ e with store := s3 }, .error (.mgr er))
                  | .ok s4 =>
                      let ps := { ps with currentStep := stepPullZone }
                      ({ e with store := s4 }, .ok ps)
          | none =>
              let (pzNew, e) := clCreatePullZone e fullDomain cfg.reverseProxyIP
              let (_, e) := clAddPullZoneHostname e pzNew.id fullDomain
              let ps :=
                { ps with pullZoneId := pzNew.id
                          cdnHostname := extractCDNHostname pzNew
                          currentStep := stepPullZone }
              match mgrUpdate e.store ps 0 with
              | .error er => (e, .error (.mgr er))
              | .ok s3 => ({ e with store := s3 }, .ok ps)

/-- Subdomain step 2 (SubdomainProvisioner.addSubdomainCNAME): upsert the
subdomain CNAME in the parent zone, then persist CurrentStep set to the
constant StepCNAMESync. -/
def spAddSubdomainCNAME (e : Env) (cfg : Config) (subdomain parentDomain : String)
    (ps : ProvisionState) : Env × Except PErr ProvisionState :=
  let (pzOpt, e) := clGetPullZone e ps.pullZoneId
  match pzOpt with
  | none => (e, .error .pullZoneFetchFailed)
  | some pz =>
      let h := extractCDNHostname pz
      if h = "" then (e, .error .emptyCDNHostname)
      else
        let (existing, e) := clGetDNSRecords e ps.zoneId
        let e :=
          match existing.find? (fun r => r.name = subdomain ∧ r.rtype = dnsRecordTypeCNAME) with
          | some r =>
              clUpdateDNSRecord e ps.zoneId r.id
                ⟨dnsRecordTypeCNAME, subdomain, h, defaultDNSRecordTTL, 0, true⟩
          | none =>
              (clAddDNSRecord e ps.zoneId
                ⟨dnsRecordTypeCNAME, subdomain, h, defaultDNSRecordTTL, 0, true⟩).2
        let ps := { ps with currentStep := stepCNAMESync }
        match mgrUpdate e.store ps 0 with
        | .error er => (e, .error (.mgr er))
        | .ok s2 => ({ e with store := s2 }, .ok ps)

def subdomainCNAMEStage (e : Env) (cfg : Config) (subdomain parentDomain : String)
    (ps : ProvisionState) : Env × Option PErr :=
  match spAddSubdomainCNAME e cfg subdomain parentDomain ps with
  | (e, .error er) => (e, some er)
  | (e, .ok _) => (e, none)

/-- SubdomainProvisioner.Provision: the two-stage switch over
CurrentStep. -/
def subdomainPipeline (e : Env) (cfg : Config) (subdomain parentDomain : String) :
    Env × Option PErr :=
  let fullDomain := subdomain ++ "." ++ parentDomain
  match mgrGetByDomain e.store fullDomain with
  | none => (e, some .stateNotFound)
  | some ps =>
      if ps.currentStep = stepNone ∨ ps.currentStep = stepDNSZone then
        match spFindParentAndCreatePullZone e cfg subdomain parentDomain ps with
        | (e, .error er) => (e, some er)
        | (e, .ok ps) => subdomainCNAMEStage e cfg subdomain parentDomain ps
      else if ps.currentStep = stepDNSRecords ∨ ps.currentStep = stepPullZone then
        subdomainCNAMEStage e cfg subdomain parentDomain ps
      else (e, none)

/-! ## Teardown (Deprovisioner and Provisioner.Deprovision) -/

/-- Deprovisioner.deleteDNSZone: skip non-positive ids, fetch the records
for audit, delete the zone; a failed delete is reported but the caller
continues. -/
def deprovDeleteDNSZone (e : Env) (zoneId : Int) : Env × Bool :=
  if zoneId ≤ 0 then (e, true)
  else
    let (_, e) := clGetDNSRecords e zoneId
    let (ok2, e) := clDeleteDNSZone e zoneId
    (e, ok2)

/-- Deprovisioner.deletePullZone. -/
def deprovDeletePullZone (e : Env) (pullZoneId : Int) : Env × Bool :=
  if pullZoneId ≤ 0 then (e, true)
  else
    let (_, e) := clGetPullZone e pullZoneId
    let (ok2, e) := clDeletePullZone e pullZoneId
    (e, ok2)

/-- Deprovisioner.deprovisionByName: look the zone and the pull zone up by
name and delete whatever was found; always returns success. -/
def deprovByName (e : Env) (domain : String) : Env :=
  let (zOpt, e) := clGetDNSZone e domain
  let zoneId := match zOpt with | some z => z.id | none => 0
  let (pzOpt, e) := clGetPullZoneByName e (generatePullZoneName domain)
  let pullZoneId := match pzOpt with | some z => z.id | none => 0
  let e := if zoneId > 0 then (deprovDeleteDNSZone e zoneId).1 else e
  let e := if pullZoneId > 0 then (deprovDeletePullZone e pullZoneId).1 else e
  e

/-- Deprovisioner.Deprovision: with a state record, delete the recorded
zone and pull zone (errors on either do not abort) and then the record;
without one, fall back to deprovisionByName. -/
def deprovisionerDeprovision (e : Env) (domain : String) : Env × Option String :=
  match mgrGetByDomain e.store domain with
  | none => (deprovByName e domain, none)
  | some ps =>
      let e := (deprovDeleteDNSZone e ps.zoneId).1
      let e := (deprovDeletePullZone e ps.pullZoneId).1
      match mgrDelete e.store ps.id with
      | .error _ => (e, some "failed to delete state")
      | .ok s2 => ({ e with store := s2 }, none)

/-- Provisioner.Deprovision: run the deprovisioner, then delete any state
record still present for the domain. -/
def modelDeprovision (e : Env) (domain : String) : Env × Option String :=
  match deprovisionerDeprovision e domain with
  | (e, some er) => (e, some er)
  | (e, none) =>
      let e :=
        match mgrGetByDomain e.store domain with
        | some existing =>
            match mgrDelete e.store existing.id with
            | .ok s2 => { e with store := s2 }
            | .error _ => e
        | none => e
      (e, none)

/-! ## Recovery driver and the success-notification tail -/

/-- Provisioner.Recover: enumerate Manager.Recover once, skip records with
five or more retries, re-provision the rest in order. -/
def modelRecover (e : Env) (cfg : Config) : Env :=
  (recoverStates e.store).foldl
    (fun env st =>
      if st.retries ≥ 5 then env
      else (modelProvision env cfg st.domain (st.id ++ "-recovered")).1)
    e

inductive RuntimeErr where
  | nilPointerDeref
deriving DecidableEq, Repr

/-- The arguments Provisioner.Provision passes to NotifySuccess. -/
structure NotifySuccessCall where
  domain : String
  zoneId : Int
  cdnHostname : String
deriving DecidableEq, Repr

/-- The post-success tail of Provisioner.Provision (provision.go lines
140-160): refresh the record, guard the CDNHostname read behind a nil
check, but read finalState.ZoneID without one — when the refresh failed
and finalState is nil that read is a nil-pointer dereference. -/
def successNotify (finalState : Option ProvisionState) (domain : String) :
    Except RuntimeErr NotifySuccessCall :=
  let cdnHostname :=
    match finalState with
    | some st => st.cdnHostname
    | none => ""
  match finalState with
  | some st => .ok { domain := domain, zoneId := st.zoneId, cdnHostname := cdnHostname }
  | none => .error .nilPointerDeref

/-- The same tail starting from the store lookup Get(provState.ID). -/
def provisionFinalNotify (s : Store) (id domain : String) :
    Except RuntimeErr NotifySuccessCall :=
  successNotify (mgrGet s id) domain

/-! ## SHA-256, HMAC-SHA256 and the webhook handler (internal/webhook)

Bytes are Nat values below 256; 32-bit words are Nat values kept below
2^32 by explicit reduction. -/

def m32 : Nat := 4294967296

def rotr32 (n x : Nat) : Nat := ((x >>> n) ||| (x <<< (32 - n))) % m32

def shaCh (x y z : Nat) : Nat := (x &&& y) ^^^ ((x ^^^ 4294967295) &&& z)

def shaMaj (x y z : Nat) : Nat := (x &&& y) ^^^ (x &&& z) ^^^ (y &&& z)

def bsig0 (x : Nat) : Nat := rotr32 2 x ^^^ rotr32 13 x ^^^ rotr32 22 x

def bsig1 (x : Nat) : Nat := rotr32 6 x ^^^ rotr32 11 x ^^^ rotr32 25 x

def ssig0 (x : Nat) : Nat := rotr32 7 x ^^^ rotr32 18 x ^^^ (x >>> 3)

def ssig1 (x : Nat) : Nat := rotr32 17 x ^^^ rotr32 19 x ^^^ (x >>> 10)

/-- The 64 round constants of FIPS 180-4, in decimal. -/
def shaK : List Nat :=
  [1116352408, 1899447441, 3049323471, 3921009573, 961987163,
   1508970993, 2453635748, 2870763221, 3624381080, 310598401,
   607225278, 1426881987, 1925078388, 2162078206, 2614888103,
   3248222580, 3835390401, 4022224774, 264347078, 604807628,
   770255983, 1249150122, 1555081692, 1996064986, 2554220882,
   2821834349, 2952996808, 3210313671, 3336571891, 3584528711,
   113926993, 338241895, 666307205, 773529912, 1294757372,
   1396182291, 1695183700, 1986661051, 2177026350, 2456956037,
   2730485921, 2820302411, 3259730800, 3345764771, 3516065817,
   3600352804, 4094571909, 275423344, 430227734, 506948616,
   659060556, 883997877, 958139571, 1322822218, 1537002063,
   1747873779, 1955562222, 2024104815, 2227730452, 2361852424,
   2428436474, 2756734187, 3204031479, 3329325298]

structure Hash8 where
  a : Nat
  b : Nat
  c : Nat
  d : Nat
  e : Nat
  f : Nat
  g : Nat
  h : Nat
deriving DecidableEq, Repr

def initHash : Hash8 :=
  ⟨1779033703, 3144134277, 1013904242, 2773480762,
   1359893119, 2600822924, 528734635, 1541459225⟩

def compressRound (s : Hash8) (kw : Nat × Nat) : Hash8 :=
  let t1 := (s.h + bsig1 s.e + shaCh s.e s.f s.g + kw.1 + kw.2) % m32
  let t2 := (bsig0 s.a + shaMaj s.a s.b s.c) % m32
  ⟨(t1 + t2) % m32, s.a, s.b, s.c, (s.d + t1) % m32, s.e, s.f, s.g⟩

def be32 (b0 b1 b2 b3 : Nat) : Nat :=
  ((b0 % 256) <<< 24) + ((b1 % 256) <<< 16) + ((b2 % 256) <<< 8) + (b3 % 256)

def blockWords : List Nat → List Nat
  | b0 :: b1 :: b2 :: b3 :: rest => be32 b0 b1 b2 b3 :: blockWords rest
  | _ => []

def extendSchedule : Nat → List Nat → List Nat
  | 0, w => w
  | k + 1, w =>
      let n := w.length
      let next :=
        (ssig1 (w.getD (n - 2) 0) + w.getD (n - 7) 0 +
         ssig0 (w.getD (n - 15) 0) + w.getD (n - 16) 0) % m32
      extendSchedule k (w ++ [next])

def schedule (w16 : List Nat) : List Nat := extendSchedule 48 w16

def compressBlock (h0 : Hash8) (block : List Nat) : Hash8 :=
  let w := schedule (blockWords block)
  let s := (shaK.zip w).foldl compressRound h0
  ⟨(h0.a + s.a) % m32, (h0.b + s.b) % m32, (h0.c + s.c) % m32, (h0.d + s.d) % m32,
   (h0.e + s.e) % m32, (h0.f + s.f) % m32, (h0.g + s.g) % m32, (h0.h + s.h) % m32⟩

def u64be (n : Nat) : List Nat :=
  [(n >>> 56) % 256, (n >>> 48) % 256, (n >>> 40) % 256, (n >>> 32) % 256,
   (n >>> 24) % 256, (n >>> 16) % 256, (n >>> 8) % 256, n % 256]

def shaPad (msg : List Nat) : List Nat :=
  let ml := msg.length
  let zeros := (64 + 56 - ((ml + 1) % 64)) % 64
  msg ++ [0x80] ++ List.replicate zeros 0 ++ u64be (8 * ml)

/-- Split a padded message into 64-byte blocks; the fuel is an upper bound
on the block count. -/
def chunk64 : Nat → List Nat → List (List Nat)
  | 0, _ => []
  | _, [] => []
  | fuel + 1, x :: rest => ((x :: rest).take 64) :: chunk64 fuel ((x :: rest).drop 64)

def u32bytes (n : Nat) : List Nat :=
  [(n >>> 24) % 256, (n >>> 16) % 256, (n >>> 8) % 256, n % 256]

def hash8Bytes (s : Hash8) : List Nat :=
  u32bytes s.a ++ u32bytes s.b ++ u32bytes s.c ++ u32bytes s.d ++
  u32bytes s.e ++ u32bytes s.f ++ u32bytes s.g ++ u32bytes s.h

/-- SHA-256 of a byte list (FIPS 180-4), as computed by crypto/sha256. -/
def sha256 (msg : List Nat) : List Nat :=
  let padded := shaPad msg
  hash8Bytes ((chunk64 padded.length padded).foldl compressBlock initHash)

/-- HMAC-SHA256 (RFC 2104), as computed by crypto/hmac over sha256. -/
def hmacSha256 (key msg : List Nat) : List Nat :=
  let k0 := if 64 < key.length then sha256 key else key
  let kp := k0 ++ List.replicate (64 - k0.length) 0
  sha256 ((kp.map (fun b => b ^^^ 0x5c)) ++ sha256 ((kp.map (fun b => b ^^^ 0x36)) ++ msg))

/-- One lowercase hex digit, as an ASCII byte (encoding/hex). -/
def hexDigitChar (n : Nat) : Nat := if n < 10 then 48 + n else 87 + n

/-- Lowercase hex encoding of a byte list, as ASCII bytes
(hex.EncodeToString). -/
def hexBytes (bs : List Nat) : List Nat :=
  bs.foldr (fun b acc => hexDigitChar (b / 16 % 16) :: (hexDigitChar (b % 16) :: acc)) []

/-- Handler.verifySignature (internal/webhook/handler.go): reject the
empty signature, else compare the header bytes against the lowercase hex
HMAC-SHA256 of the body under the secret (hmac.Equal is plain byte
equality in constant time). -/
def verifySignature (secret payload signature : List Nat) : Bool :=
  if signature = [] then false
  else signature = hexBytes (hmacSha256 secret payload)

/-- WebhookPayload (absent optional fields decode to empty strings, as Go
zero values). -/
structure WebhookPayload where
  event : String
  domain : String
  subdomain : String
  parentDomain : String
  user : String
deriving DecidableEq, Repr

/-- validatePayload: user always required; domain required for the three
domain events; subdomain and parent_domain for subdomain_created; unknown
events rejected. -/
def validatePayloadErr (p : WebhookPayload) : Option String :=
  if p.user = "" then some "user is required"
  else if p.event = "account_created" ∨ p.event = "addon_created" ∨
          p.event = "account_deleted" then
    if p.domain = "" then some "domain is required" else none
  else if p.event = "subdomain_created" then
    if p.subdomain = "" then some "subdomain is required"
    else if p.parentDomain = "" then some "parent_domain is required"
    else none
  else some "unknown event type"

/-- The asynchronous work items ServeHTTP spawns after accepting a hook. -/
inductive HookAction where
  | provisionDomain (domain user : String)
  | provisionSubdomain (subdomain parentDomain user : String)
  | deprovisionDomain (domain : String)
deriving DecidableEq, Repr

structure HookRequest where
  method : String
  body : List Nat
  signature : List Nat
deriving DecidableEq, Repr

structure HookResult where
  status : Nat
  actions : List HookAction
deriving DecidableEq, Repr

/-- Handler.ServeHTTP: method gate, signature gate, JSON decode (modelled
by the decode argument, standing for json.Unmarshal), payload validation,
then the event switch; acceptance answers 202 and spawns exactly one work
item.  Until the 202 branch no state record is touched. -/
def serveHook (secret : List Nat) (decode : List Nat → Option WebhookPayload)
    (req : HookRequest) : HookResult :=
  if req.method ≠ "POST" then ⟨405, []⟩
  else if verifySignature secret req.body req.signature = false then ⟨401, []⟩
  else
    match decode req.body with
    | none => ⟨400, []⟩
    | some p =>
        match validatePayloadErr p with
        | some _ => ⟨400, []⟩
        | none =>
            if p.event = "account_created" ∨ p.event = "addon_created" then
              ⟨202, [.provisionDomain p.domain p.user]⟩
            else if p.event = "subdomain_created" then
              ⟨202, [.provisionSubdomain p.subdomain p.parentDomain p.user]⟩
            else if p.event = "account_deleted" then
              ⟨202, [.deprovisionDomain p.domain]⟩
            else ⟨400, []⟩

/-! ## Retry policy (internal/retry and Client.doRequest)

The loop semantics are those of the sethvargo/go-retry combinators the
client composes: retry.Do retries only errors wrapped by RetryableError,
WithMaxRetries(n) permits n retries after the initial attempt, and
WithCappedDuration(cap) over NewExponential(initial) yields the delay
min(initial * 2^i, cap) before the i-th retry (0-indexed). -/

/-- What one attempt inside Client.doRequest observes. -/
inductive AttemptOutcome where
  | netErr
  | status (code : Nat)
deriving DecidableEq, Repr

inductive AttemptClass where
  | success
  | retryable
  | terminal
deriving DecidableEq, Repr

/-- The classification Client.doRequest applies to one attempt: a network
error is returned unwrapped (so the retry loop stops on it); a 4xx other
than 429 is returned unwrapped; 429 and every status of 500 and above are
wrapped as retryable; statuses below 400 succeed. -/
def doRequestClassify : AttemptOutcome → AttemptClass
  | .netErr => .terminal
  | .status code =>
      if 400 ≤ code then
        if code < 500 ∧ code ≠ 429 then .terminal
        else .retryable
      else .success

/-- retry.Do over the attempt classification: outcomes gives the result of
each successive attempt; the result is the number of attempts made and the
outcome surfaced. -/
def goRetryRunAux (outcomes : Nat → AttemptOutcome) : Nat → Nat → Nat × AttemptOutcome
  | k, 0 => (k + 1, outcomes k)
  | k, r + 1 =>
      match doRequestClassify (outcomes k) with
      | .retryable => goRetryRunAux outcomes (k + 1) r
      | _ => (k + 1, outcomes k)

/-- Client.doRequest with the configured maximum number of retries. -/
def goRetryDoRequest (outcomes : Nat → AttemptOutcome) (maxRetries : Nat) :
    Nat × AttemptOutcome :=
  goRetryRunAux outcomes 0 maxRetries

/-- retry.Config (internal/retry/retry.go). -/
structure RetryConfig where
  maxRetries : Nat
  initialBackoffSec : Nat
  maxBackoffSec : Nat
  multiplier : Nat
  retryableErrors : List Nat
deriving DecidableEq, Repr

/-- retry.DefaultConfig: 5 retries, 1 s initial backoff, 60 s cap,
multiplier 2, retryable statuses 408, 429, 500, 502, 503, 504. -/
def defaultRetryConfig : RetryConfig :=
  { maxRetries := 5, initialBackoffSec := 1, maxBackoffSec := 60, multiplier := 2
    retryableErrors := [408, 429, 500, 502, 503, 504] }

/-- The Go error values Config.IsRetryable inspects: an HTTPError with a
status, any other non-nil error, or nil. -/
inductive GoError where
  | httpError (code : Nat)
  | plain
deriving DecidableEq, Repr

/-- Config.IsRetryable: nil is not retryable; an HTTPError is retryable
exactly when its status is listed; every other error is assumed
retryable. -/
def configIsRetryable (c : RetryConfig) : Option GoError → Bool
  | none => false
  | some (.httpError code) => c.retryableErrors.contains code
  | some .plain => true

/-- The delay before the i-th retry (0-indexed) under
WithCappedDuration(cap, WithMaxRetries(_, NewExponential(initial))). -/
def backoffDelaySec (initial cap i : Nat) : Nat := min (initial * 2 ^ i) cap

/-! ## Concrete scenario data used by the theorems below -/

def cfgEx : Config :=
  { soaEmail := "admin@example.com", reverseProxyIP := "203.0.113.7"
    originShieldRegion := "SG" }

/-- A configuration whose origin shield region differs from SG. -/
def cfgShieldLAEx : Config :=
  { soaEmail := "admin@example.com", reverseProxyIP := "203.0.113.7"
    originShieldRegion := "LA" }

/-- A fresh subdomain record at step 0, mid-provisioning. -/
def psSubEx : ProvisionState :=
  { id := "s1", domain := "blog.example.com", status := "provisioning", currentStep := 0
    zoneId := 0, pullZoneId := 0, cdnHostname := "", error := "", retries := 0
    createdAt := 0, updatedAt := 0 }

/-- A world holding the parent zone of psSubEx and no pull zones. -/
def envSubEx : Env :=
  { store := [psSubEx]
    prov := { zones := [{ id := 7, domain := "example.com", soaEmail := "admin@example.com" }]
              records := [], pullZones := [], nextId := 100 }
    calls := [] }

/-- A record checkpointed mid-pipeline: the process died after step 2, so
the persisted status is provisioning and the persisted step is 2. -/
def psProvEx : ProvisionState :=
  { id := "a", domain := "example.com", status := "provisioning", currentStep := 2
    zoneId := 7, pullZoneId := 0, cdnHostname := "", error := "", retries := 0
    createdAt := 0, updatedAt := 0 }

def envProvEx : Env :=
  { store := [psProvEx]
    prov := { zones := [{ id := 7, domain := "example.com", soaEmail := "admin@example.com" }]
              records := [], pullZones := [], nextId := 100 }
    calls := [] }

/-- A failed record persisted at step 2 with one retry recorded. -/
def psFailEx : ProvisionState :=
  { id := "a", domain := "example.com", status := "failed", currentStep := 2
    zoneId := 7, pullZoneId := 0, cdnHostname := "", error := "boom", retries := 1
    createdAt := 0, updatedAt := 0 }

def envFailEx : Env :=
  { store := [psFailEx]
    prov := { zones := [{ id := 7, domain := "example.com", soaEmail := "admin@example.com" }]
              records := [], pullZones := [], nextId := 100 }
    calls := [] }

/-- The record the recovery run of envFailEx ends with. -/
def psFailFinalEx : ProvisionState :=
  { id := "a", domain := "example.com", status := "success", currentStep := 4
    zoneId := 7, pullZoneId := 105, cdnHostname := "morden-example-com.b-cdn.net"
    error := "", retries := 1, createdAt := 0, updatedAt := 0 }

/-- An already-provisioned record. -/
def psOKEx : ProvisionState :=
  { id := "b", domain := "ok.com", status := "success", currentStep := 4
    zoneId := 1, pullZoneId := 2, cdnHostname := "x", error := "", retries := 0
    createdAt := 0, updatedAt := 0 }

def envOKEx : Env :=
  { store := [psOKEx]
    prov := { zones := [], records := [], pullZones := [], nextId := 5 }
    calls := [] }

/-- An empty world: no records, no provider resources. -/
def envEmptyEx : Env :=
  { store := [], prov := { zones := [], records := [], pullZones := [], nextId := 5 }
    calls := [] }

/-- A JSON decode that always fails, for exercising the handler short of
the parse stage. -/
def decodeNoneEx : List Nat → Option WebhookPayload := fun _ => none

/-! ## Theorems -/

/-- After the two save operations, the real file holds exactly the newly
serialized record set; after any shorter prefix it is untouched. -/
theorem saveOps_crash_prefix (post : Store) (d : DiskState) (k : Nat) :
    (List.foldl applyDiskOp d ((saveOps post).take k)).main = d.main ∨
    (List.foldl applyDiskOp d ((saveOps post).take k)).main = some post := by
  match k with
  | 0 => left; rfl
  | 1 => left; rfl
  | n + 2 =>
      right
      show (List.foldl applyDiskOp d
        (List.take (n + 2) [DiskOp.writeTmp post, DiskOp.renameTmpToMain])).main = some post
      simp [List.take_succ_cons, applyDiskOp]

/-- C2: every mutation of the state store (create, update, delete,
incrementStep, setError, markSuccess, markProvisioning, clear) persists by
writing the full serialized record set to the temp file and renaming it
over the real path; a crash at any point leaves the real file holding
either the complete pre-mutation record set or the complete post-mutation
record set, never a partial write. -/
theorem mutation_crash_atomicity (m : Mutation) (s : Store) (d : DiskState) (k : Nat) :
    (List.foldl applyDiskOp d ((mutationDiskOps m s).take k)).main = d.main ∨
    (List.foldl applyDiskOp d ((mutationDiskOps m s).take k)).main =
      some (mutationResult m s).1 := by
  rcases h : mutationResult m s with ⟨s2, flag⟩
  unfold mutationDiskOps
  rw [h]
  cases flag with
  | false => left; simp
  | true => simpa using saveOps_crash_prefix s2 d k

/-- C1 counterexample: the subdomain variant's first step, run on a fresh
record persisted at step 0 (parent zone present, no pull zone of the
canonical name yet), persists currentStep = 3: the step jumps forward by
three, not one. -/
theorem subdomain_step_jump_counterexample :
    (mgrGetByDomain envSubEx.store "blog.example.com").map
        (fun st => st.currentStep) = some 0 ∧
    (mgrGetByDomain
        (spFindParentAndCreatePullZone envSubEx cfgEx "blog" "example.com" psSubEx).1.store
        "blog.example.com").map (fun st => st.currentStep) = some 3 ∧
    ¬((3 : Int) = 0 + 1) := by decide

/-- C1 amended: Manager.IncrementStep, the step-advance primitive used by
the domain pipeline, always advances the stored record's currentStep by
exactly one (the subdomain variant bypasses it by assigning step constants
directly, as the counterexample shows). -/
theorem incrementStep_advances_by_one (s : Store) (id : String) (now : Nat) (s2 : Store)
    (h : mgrIncrementStep s id now = .ok s2) (st : ProvisionState) (hmem : st ∈ s)
    (hid : st.id = id) :
    ({ st with currentStep := st.currentStep + 1, updatedAt := now } : ProvisionState) ∈ s2 := by
  unfold mgrIncrementStep at h
  cases hfind : mgrGet s id with
  | none => rw [hfind] at h; cases h
  | some q =>
      rw [hfind] at h
      cases h
      unfold setById
      have hmap := List.mem_map_of_mem
        (fun st => if st.id = id then
          { st with currentStep := st.currentStep + 1, updatedAt := now } else st) hmem
      simpa [hid] using hmap

/-- Witness for the amended C1 theorem at a concrete store. -/
theorem incrementStep_advances_by_one_witness :
    ({ psSubEx with currentStep := psSubEx.currentStep + 1, updatedAt := 0 } : ProvisionState) ∈
      ([{ psSubEx with currentStep := 1, updatedAt := 0 }] : Store) :=
  incrementStep_advances_by_one [psSubEx] "s1" 0
    [{ psSubEx with currentStep := 1, updatedAt := 0 }]
    (by rfl) psSubEx (by decide) (by decide)

/-- C3 counterexample: a record checkpointed mid-pipeline has status
provisioning, which Manager.Recover does not select, so after a restart
the recovery driver re-enqueues nothing and the pipeline never resumes for
it: the run leaves the world untouched and calls no provider operation. -/
theorem provisioning_record_not_recovered :
    psProvEx.status = statusProvisioning ∧ psProvEx.currentStep = 2 ∧
    recoverStates envProvEx.store = [] ∧
    modelRecover envProvEx cfgEx = envProvEx := by decide

/-- C3 amended: recovery resumes only pending records and failed records
with fewer than five retries.  For a failed record persisted at
currentStep = 2 the restarted driver re-enqueues it; the pipeline calls
getPullZoneByName on the domain's canonical pull-zone name and drives the
record to status success at step 4. -/
theorem failed_record_recovery_resumes :
    (modelRecover envFailEx cfgEx).store = [psFailFinalEx] ∧
    ApiCall.getPullZoneByName "morden-example-com" ∈ (modelRecover envFailEx cfgEx).calls := by
  decide

/-- C4: when the domain already has a record in status success, Provision
returns at once: the state store, the provider and the call log are left
exactly as they were, so a replayed webhook creates no second record and
no duplicate provider resources. -/
theorem provision_short_circuit_on_success (e : Env) (cfg : Config) (domain newId : String)
    (r : ProvisionState) (h1 : mgrGetByDomain e.store domain = some r)
    (h2 : r.status = statusSuccess) :
    modelProvision e cfg domain newId = (e, none) := by
  unfold modelProvision
  rw [h1]
  simp [h2]

/-- Witness for C4 at a concrete already-provisioned store. -/
theorem provision_short_circuit_on_success_witness :
    modelProvision envOKEx cfgEx "ok.com" "fresh" = (envOKEx, none) :=
  provision_short_circuit_on_success envOKEx cfgEx "ok.com" "fresh" psOKEx
    (by decide) (by decide)

/-- The Boolean filter of Manager.Recover agrees with the claimed
predicate. -/
theorem recoverPred_iff (st : ProvisionState) :
    recoverPred st = true ↔
      (st.status = statusPending ∨ (st.status = statusFailed ∧ st.retries < 5)) := by
  unfold recoverPred
  by_cases hp : st.status = statusPending
  · simp [hp]
  · by_cases hf : st.status = statusFailed ∧ st.retries < 5
    · simp [hp, hf]
    · simp [hp, hf]

/-- C5: Manager.Recover returns exactly the pending records together with
the failed records having fewer than five retries, and the recovery driver
invokes the pipeline only for records with fewer than five retries, so a
sixth automatic retry never fires. -/
theorem recover_membership_and_retry_cap (s : Store) (st : ProvisionState) :
    (st ∈ recoverStates s ↔
      st ∈ s ∧ (st.status = statusPending ∨ (st.status = statusFailed ∧ st.retries < 5))) ∧
    (st ∈ recoverDriverTargets s → st.retries < 5) := by
  constructor
  · unfold recoverStates
    rw [List.mem_filter]
    exact and_congr_right (fun _ => recoverPred_iff st)
  · intro h
    unfold recoverDriverTargets at h
    rw [List.mem_filter] at h
    have h2 := h.2
    simp at h2
    exact h2

/-- Witness for C5 at a concrete store. -/
theorem recover_membership_and_retry_cap_witness :
    psFailEx ∈ recoverStates [psFailEx] :=
  (recover_membership_and_retry_cap [psFailEx] psFailEx).1.mpr (by decide)

theorem hash8Bytes_length (s : Hash8) : (hash8Bytes s).length = 32 := by
  simp [hash8Bytes, u32bytes]

theorem sha256_length (msg : List Nat) : (sha256 msg).length = 32 := by
  unfold sha256
  exact hash8Bytes_length _

theorem hexBytes_length (bs : List Nat) : (hexBytes bs).length = 2 * bs.length := by
  induction bs with
  | nil => rfl
  | cons b rest ih =>
      show (hexDigitChar (b / 16 % 16) :: (hexDigitChar (b % 16) :: hexBytes rest)).length
        = 2 * (rest.length + 1)
      simp [List.length_cons, ih]
      ring

/-- C6: a request presented to POST /hook proceeds past the signature
check exactly when the signature header equals the lowercase hex encoding
of the HMAC-SHA256 of the received body bytes under the configured secret;
a missing or mismatched signature draws a 401 response and spawns no work
item, so no state record is created. -/
theorem webhook_signature_acceptance (secret body sig : List Nat)
    (decode : List Nat → Option WebhookPayload) :
    (verifySignature secret body sig = true ↔ sig = hexBytes (hmacSha256 secret body)) ∧
    (verifySignature secret body sig = false →
      serveHook secret decode { method := "POST", body := body, signature := sig } =
        { status := 401, actions := [] }) := by
  constructor
  · unfold verifySignature
    by_cases h0 : sig = []
    · subst h0
      rw [if_pos rfl]
      simp only [Bool.false_eq_true, false_iff]
      intro hEq
      have hlen := congrArg List.length hEq
      rw [hexBytes_length] at hlen
      unfold hmacSha256 at hlen
      rw [sha256_length] at hlen
      simp at hlen
    · rw [if_neg h0]
      simp
  · intro hv
    unfold serveHook
    simp [hv]

/-- Witness for C6: an empty signature header is rejected with 401 and no
work item. -/
theorem webhook_signature_acceptance_witness :
    serveHook [107] decodeNoneEx { method := "POST", body := [97], signature := [] } =
      { status := 401, actions := [] } :=
  (webhook_signature_acceptance [107] [97] [] decodeNoneEx).2 (by decide)

theorem goRetryRunAux_attempts_le (outcomes : Nat → AttemptOutcome) :
    ∀ r k : Nat, (goRetryRunAux outcomes k r).1 ≤ k + r + 1 := by
  intro r
  induction r with
  | zero =>
      intro k
      simp [goRetryRunAux]
  | succ r ih =>
      intro k
      rw [goRetryRunAux]
      split
      · exact le_trans (ih (k + 1)) (by omega)
      · simp

/-- C7 counterexample: under the default configuration, a 408 response is
terminal after a single attempt (the claim says 408 is retried), a
persistent 500 draws six attempts in total (the claim says at most five),
and a network failure is surfaced after a single attempt (the claim says
network failures are retried). -/
theorem status408_not_retried_counterexample :
    goRetryDoRequest (fun _ => .status 408) defaultRetryConfig.maxRetries =
      (1, .status 408) ∧
    doRequestClassify (.status 408) = .terminal ∧
    goRetryDoRequest (fun _ => .status 500) defaultRetryConfig.maxRetries =
      (6, .status 500) ∧
    goRetryDoRequest (fun _ => .netErr) defaultRetryConfig.maxRetries = (1, .netErr) := by
  decide

/-- C7 amended: Client.doRequest makes at most six calls in total (the
initial attempt plus the configured five retries); a response status is
retried exactly when it is 429 or at least 500; every other 4xx, 408
included, and every error Client.doRequest returns unwrapped (network
failures among them) is terminal and surfaced; the backoff before the
i-th retry is min(2^i, 60) seconds, i.e. capped exponential starting at
1 s with multiplier 2 and cap 60 s. -/
theorem doRequest_retry_policy :
    (∀ outcomes : Nat → AttemptOutcome,
      (goRetryDoRequest outcomes defaultRetryConfig.maxRetries).1 ≤
        defaultRetryConfig.maxRetries + 1) ∧
    (∀ code : Nat,
      doRequestClassify (.status code) = .retryable ↔ (code = 429 ∨ 500 ≤ code)) ∧
    (∀ code : Nat, 400 ≤ code → code < 500 → code ≠ 429 →
      doRequestClassify (.status code) = .terminal) ∧
    doRequestClassify .netErr = .terminal ∧
    (∀ i : Nat,
      backoffDelaySec defaultRetryConfig.initialBackoffSec defaultRetryConfig.maxBackoffSec i =
        min (2 ^ i) 60) := by
  refine ⟨fun outcomes => ?_, fun code => ?_, fun code h1 h2 h3 => ?_, rfl, fun i => ?_⟩
  · simpa using goRetryRunAux_attempts_le outcomes defaultRetryConfig.maxRetries 0
  · show (if 400 ≤ code then
        if code < 500 ∧ code ≠ 429 then AttemptClass.terminal else AttemptClass.retryable
      else AttemptClass.success) = AttemptClass.retryable ↔ (code = 429 ∨ 500 ≤ code)
    by_cases h1 : 400 ≤ code
    · by_cases h2 : code < 500 ∧ code ≠ 429
      · rw [if_pos h1, if_pos h2]
        simp only [reduceCtorEq, false_iff]
        omega
      · rw [if_pos h1, if_neg h2]
        simp only [true_iff]
        rcases not_and_or.mp h2 with h | h
        · right; omega
        · left; omega
    · rw [if_neg h1]
      simp only [reduceCtorEq, false_iff]
      omega
  · show (if 400 ≤ code then
        if code < 500 ∧ code ≠ 429 then AttemptClass.terminal else AttemptClass.retryable
      else AttemptClass.success) = AttemptClass.terminal
    rw [if_pos (by omega), if_pos ⟨h2, h3⟩]
  · unfold backoffDelaySec defaultRetryConfig
    simp

/-- Witness for the amended C7 theorem at concrete statuses. -/
theorem doRequest_retry_policy_witness :
    doRequestClassify (.status 404) = .terminal :=
  doRequest_retry_policy.2.2.1 404 (by decide) (by decide) (by decide)

/-- C8 counterexample: the pull-zone creation request carries the literal
region code SG regardless of the configured origin-shield region; with a
configuration whose region is LA the request still says SG. -/
theorem origin_shield_region_hardcoded_counterexample :
    (mkCreatePullZoneRequest "example.com" "203.0.113.7").originShieldZoneCode = "SG" ∧
    cfgShieldLAEx.originShieldRegion = "LA" ∧
    (mkCreatePullZoneRequest "example.com" "203.0.113.7").originShieldZoneCode ≠
      cfgShieldLAEx.originShieldRegion := by decide

/-- The Update-then-IncrementStep tail issues no provider calls. -/
theorem updateAndIncrement_calls (e : Env) (ps : ProvisionState) :
    (updateAndIncrement e ps).1.calls = e.calls := by
  unfold updateAndIncrement
  cases h1 : mgrUpdate e.store ps 0 with
  | error er => rfl
  | ok s2 =>
      cases h2 : mgrIncrementStep s2 ps.id 0 with
      | error er => simp [h2]
      | ok s3 => simp [h2]

/-- C8 amended: when no pull zone of the canonical name exists, step 3
issues exactly one creation request carrying origin http://originIP,
origin host header equal to the domain, ASIA region only, origin shield
enabled with the hardcoded region code SG, auto-SSL, Brotli, and cache
expiration 1440 minutes, followed by the best-effort hostname add. -/
theorem createPullZone_request_fields (e : Env) (cfg : Config) (domain : String)
    (ps : ProvisionState)
    (h : e.prov.pullZones.find? (fun z => z.name = generatePullZoneName domain) = none) :
    (dpCreatePullZone e cfg domain ps).1.calls =
      e.calls ++
        [ApiCall.getPullZoneByName (generatePullZoneName domain),
         ApiCall.createPullZone
           { name := generatePullZoneName domain
             originUrl := "http://" ++ cfg.reverseProxyIP
             originHostHeader := domain
             enableGeoZoneASIA := true
             enableGeoZoneEU := false
             enableGeoZoneNA := false
             enableGeoZoneSA := false
             enableGeoZoneAF := false
             enableOriginShield := true
             originShieldZoneCode := "SG"
             enableAutoSSL := true
             enableBrotliCompression := true
             cacheExpirationTime := 1440 },
         ApiCall.addPullZoneHostname e.prov.nextId domain] := by
  unfold dpCreatePullZone clGetPullZoneByName clCreatePullZone clAddPullZoneHostname
  simp only [h, logCall, mkCreatePullZoneRequest, updateAndIncrement_calls]
  simp [List.append_assoc]

/-- Witness for the amended C8 theorem at a concrete empty world. -/
theorem createPullZone_request_fields_witness :
    (dpCreatePullZone envEmptyEx cfgEx "example.com" psOKEx).1.calls =
      envEmptyEx.calls ++
        [ApiCall.getPullZoneByName (generatePullZoneName "example.com"),
         ApiCall.createPullZone
           { name := generatePullZoneName "example.com"
             originUrl := "http://" ++ cfgEx.reverseProxyIP
             originHostHeader := "example.com"
             enableGeoZoneASIA := true
             enableGeoZoneEU := false
             enableGeoZoneNA := false
             enableGeoZoneSA := false
             enableGeoZoneAF := false
             enableOriginShield := true
             originShieldZoneCode := "SG"
             enableAutoSSL := true
             enableBrotliCompression := true
             cacheExpirationTime := 1440 },
         ApiCall.addPullZoneHostname envEmptyEx.prov.nextId "example.com"] :=
  createPullZone_request_fields envEmptyEx cfgEx "example.com" psOKEx (by decide)

theorem deprovDeleteDNSZone_store (e : Env) (z : Int) :
    (deprovDeleteDNSZone e z).1.store = e.store := by
  unfold deprovDeleteDNSZone clGetDNSRecords clDeleteDNSZone logCall
  split <;> rfl

theorem deprovDeletePullZone_store (e : Env) (z : Int) :
    (deprovDeletePullZone e z).1.store = e.store := by
  unfold deprovDeletePullZone clGetPullZone clDeletePullZone logCall
  split <;> rfl

/-- The deprovisioner itself always reports success: resource deletions
that fail are logged and skipped, and the final record delete always finds
the record the domain lookup just returned. -/
theorem deprovisioner_ok (e : Env) (d : String) :
    (deprovisionerDeprovision e d).2 = none := by
  unfold deprovisionerDeprovision
  cases hfind : mgrGetByDomain e.store d with
  | none => simp
  | some ps =>
      simp only
      rw [deprovDeletePullZone_store, deprovDeleteDNSZone_store]
      have hmem : ps ∈ e.store := List.mem_of_find?_eq_some hfind
      cases hget : mgrGet e.store ps.id with
      | none =>
          exfalso
          unfold mgrGet at hget
          have hall := List.find?_eq_none.mp hget ps hmem
          simp at hall
      | some q =>
          unfold mgrDelete
          rw [hget]

/-- C9: teardown is idempotent: Deprovision on a domain whose state record
and provider resources are absent performs only the two lookups (no
deletions), leaves the store and the provider unchanged, and returns
success; and in general (resource deletions being modelled failure-free)
teardown always returns success. -/
theorem deprovision_idempotent_absent (e : Env) (domain : String)
    (h1 : mgrGetByDomain e.store domain = none)
    (h2 : e.prov.zones.find? (fun z => z.domain = domain) = none)
    (h3 : e.prov.pullZones.find? (fun z => z.name = generatePullZoneName domain) = none) :
    modelDeprovision e domain =
      ({ e with calls := e.calls ++
          [ApiCall.getDNSZone domain,
           ApiCall.getPullZoneByName (generatePullZoneName domain)] }, none) ∧
    (∀ (e2 : Env) (d2 : String), (modelDeprovision e2 d2).2 = none) := by
  constructor
  · unfold modelDeprovision deprovisionerDeprovision deprovByName clGetDNSZone
      clGetPullZoneByName logCall
    simp only [h1, h2, h3]
    simp [h1, List.append_assoc]
  · intro e2 d2
    unfold modelDeprovision
    cases hdd : deprovisionerDeprovision e2 d2 with
    | mk eX res =>
        have hok := deprovisioner_ok e2 d2
        rw [hdd] at hok
        simp at hok
        subst hok
        rfl

/-- Witness for C9 at the empty world. -/
theorem deprovision_idempotent_absent_witness :
    modelDeprovision envEmptyEx "gone.com" =
      ({ envEmptyEx with calls := envEmptyEx.calls ++
          [ApiCall.getDNSZone "gone.com",
           ApiCall.getPullZoneByName (generatePullZoneName "gone.com")] }, none) :=
  (deprovision_idempotent_absent envEmptyEx "gone.com" (by decide) (by decide) (by decide)).1

/-- C10 (code bug in provision.go lines 150-154): the success-notification
tail guards the CDNHostname read behind a nil check but reads
finalState.ZoneID unconditionally, so when the post-success refresh
Get(provState.ID) fails the notification path dereferences a nil record
(a runtime panic); with a present record it notifies with the refreshed
ZoneID and CDNHostname. -/
theorem success_notify_nil_deref :
    provisionFinalNotify [] "a" "example.com" = .error .nilPointerDeref ∧
    provisionFinalNotify [psOKEx] "b" "ok.com" =
      .ok { domain := "ok.com", zoneId := 1, cdnHostname := "x" } := by
  constructor <;> rfl

end Whm2Bunny
